import Mathlib

/-!
Verification of the voronoi_map backend (src/backend/algorithm.py and
src/backend/main.py) against its natural-language specification.

The code is shallowly embedded: geographic coordinates and extents are
rationals (the Python floats, modelled exactly), unit-sphere projections are
real triples, the matplotlib rendering stage is reduced to the data it
consumes, and file I/O (geopandas `read_file`) is modelled by passing the
load outcome in as an `Except` value.
-/

namespace VoronoiMap

/-- A loaded reference boundary dataset, reduced to the only observation the
algorithm makes of it: `world.total_bounds = (minx, miny, maxx, maxy)`,
i.e. (min_lon, min_lat, max_lon, max_lat). -/
structure Dataset where
  minx : ℚ
  miny : ℚ
  maxx : ℚ
  maxy : ℚ
deriving DecidableEq

/-- Lines 42-46 of algorithm.py: try `gpd.read_file(geojson_path)`; on any
exception fall back to reading the bundled naturalearth_lowres dataset (whose
own failure propagates).  Each read's outcome is passed in as a value. -/
def loadWorld (primary fallback : Except String Dataset) : Except String Dataset :=
  match primary with
  | .ok w => .ok w
  | .error _ => fallback

/-- The resolved viewing window `[min_lon, max_lon, min_lat, max_lat]`. -/
structure Extent where
  min_lon : ℚ
  max_lon : ℚ
  min_lat : ℚ
  max_lat : ℚ
deriving DecidableEq

/-- Lines 52-63 of algorithm.py: bounding box of the reference dataset,
expanded outward by 5 percent of its width and height, the low ends bounded
below by -180 resp. -90 and the high ends bounded above by 180 resp. 90. -/
def autoExtent (w : Dataset) : Extent :=
  { min_lon := max (-180) (w.minx - (w.maxx - w.minx) * (5 / 100))
    max_lon := min 180 (w.maxx + (w.maxx - w.minx) * (5 / 100))
    min_lat := max (-90) (w.miny - (w.maxy - w.miny) * (5 / 100))
    max_lat := min 90 (w.maxy + (w.maxy - w.miny) * (5 / 100)) }

/-- Lines 50-64 of algorithm.py: `if not extent or len(extent) != 4`, derive
the extent from the dataset; otherwise use the caller's four values verbatim. -/
def resolveExtent (extent : Option (List ℚ)) (w : Dataset) : Extent :=
  match extent with
  | some [a, b, c, d] => ⟨a, b, c, d⟩
  | _ => autoExtent w

/-- numpy.linspace over ℚ: `n` evenly spaced samples from `a` to `b`
inclusive (`[a]` when `n = 1`, empty when `n = 0`). -/
def linspace (a b : ℚ) (n : ℕ) : List ℚ :=
  if n = 1 then [a]
  else (List.range n).map (fun i : ℕ => a + (b - a) * (i : ℚ) / ((n : ℚ) - 1))

/-- Line 77 of algorithm.py, lower latitude endpoint:
`max(-90, view_min_lat - grid_pad_y)` with `grid_pad_y = height * 0.1`. -/
def padLatLo (ext : Extent) : ℚ :=
  max (-90) (ext.min_lat - (ext.max_lat - ext.min_lat) * (1 / 10))

/-- Line 77 of algorithm.py, upper latitude endpoint. -/
def padLatHi (ext : Extent) : ℚ :=
  min 90 (ext.max_lat + (ext.max_lat - ext.min_lat) * (1 / 10))

/-- Line 78 of algorithm.py, lower longitude endpoint. -/
def padLonLo (ext : Extent) : ℚ :=
  max (-180) (ext.min_lon - (ext.max_lon - ext.min_lon) * (1 / 10))

/-- Line 78 of algorithm.py, upper longitude endpoint. -/
def padLonHi (ext : Extent) : ℚ :=
  min 180 (ext.max_lon + (ext.max_lon - ext.min_lon) * (1 / 10))

/-- Line 77 of algorithm.py: the `lat_n` grid latitudes. -/
def gridLats (ext : Extent) (lat_n : ℕ) : List ℚ :=
  linspace (padLatLo ext) (padLatHi ext) lat_n

/-- Line 78 of algorithm.py: the `lon_n` grid longitudes. -/
def gridLons (ext : Extent) (lon_n : ℕ) : List ℚ :=
  linspace (padLonLo ext) (padLonHi ext) lon_n

/-- Squared Euclidean distance between two 3-D points; the KD-tree's
Euclidean metric has the same order, so the same argmin. -/
def sqDist {α : Type} [LinearOrderedRing α] (p q : α × α × α) : α :=
  (p.1 - q.1) ^ 2 + (p.2.1 - q.2.1) ^ 2 + (p.2.2 - q.2.2) ^ 2

/-- Index and squared distance of a closest site to `p`, ties going to the
earliest list position.  Models `cKDTree(sites).query(p, k=1)` from lines
87-88 of algorithm.py. -/
def nearestAux {α : Type} [LinearOrderedRing α] (p : α × α × α) :
    List (α × α × α) → Option (ℕ × α)
  | [] => none
  | s :: rest =>
    match nearestAux p rest with
    | none => some (0, sqDist s p)
    | some (j, m) => if sqDist s p ≤ m then some (0, sqDist s p) else some (j + 1, m)

/-- The nearest-site index for one query point (0 on an empty site list,
a case the backend excludes by requiring at least two points). -/
def nearestSiteIdx {α : Type} [LinearOrderedRing α]
    (sites : List (α × α × α)) (p : α × α × α) : ℕ :=
  match nearestAux p sites with
  | some jm => jm.1
  | none => 0

/-- Lines 83-89 of algorithm.py: query every grid point against the site
tree and reshape the flat answer back to the grid's (lat, lon) shape. -/
def labelRaster {α : Type} [LinearOrderedRing α]
    (sites : List (α × α × α)) (grid : List (List (α × α × α))) : List (List ℕ) :=
  grid.map (fun row => row.map (nearestSiteIdx sites))

/-- numpy.deg2rad: multiply by pi over 180. -/
noncomputable def deg2rad (x : ℝ) : ℝ := x * (Real.pi / 180)

/-- Lines 16-25 of algorithm.py: one (lat_deg, lon_deg) pair projected onto
the unit sphere. -/
noncomputable def geo_to_cartesian (lat_deg lon_deg : ℝ) : ℝ × ℝ × ℝ :=
  (Real.cos (deg2rad lat_deg) * Real.cos (deg2rad lon_deg),
   Real.cos (deg2rad lat_deg) * Real.sin (deg2rad lon_deg),
   Real.sin (deg2rad lat_deg))

/-- The batch form of lines 16-25 (`np.column_stack` over whole arrays). -/
noncomputable def geo_to_cartesian_batch (ps : List (ℝ × ℝ)) : List (ℝ × ℝ × ℝ) :=
  ps.map (fun q => geo_to_cartesian q.1 q.2)

/-- The spec's Coordinate Projector, written from the contract in section 4.1:
x = cos(lat) * cos(lon), y = cos(lat) * sin(lon), z = sin(lat), with lat and
lon first converted from degrees to radians. -/
noncomputable def coordinateProjectorSpec (lat_deg lon_deg : ℝ) : ℝ × ℝ × ℝ :=
  (Real.cos (lat_deg * Real.pi / 180) * Real.cos (lon_deg * Real.pi / 180),
   Real.cos (lat_deg * Real.pi / 180) * Real.sin (lon_deg * Real.pi / 180),
   Real.sin (lat_deg * Real.pi / 180))

/-- Lines 80-83 of algorithm.py: the meshgrid of the padded window, each
sample projected to the unit sphere; row `i` is latitude `lats[i]` paired
with every longitude. -/
noncomputable def projGrid (ext : Extent) (lat_n lon_n : ℕ) : List (List (ℝ × ℝ × ℝ)) :=
  (gridLats ext lat_n).map fun la : ℚ =>
    (gridLons ext lon_n).map fun lo : ℚ => geo_to_cartesian (la : ℝ) (lo : ℝ)

/-- Everything `generate_voronoi_map` computes, with the matplotlib rendering
stage reduced to the data it consumes: the label raster, the colors actually
used (`point_colors[:len(points)]`, line 94), whether the plugin overlay was
drawn (lines 113-118), whether the ocean was filled (lines 126-127), and the
extent applied to the axes (line 131). -/
structure MapResult where
  raster : List (List ℕ)
  usedColors : List String
  drewPlugin : Bool
  filledOcean : Bool
  extentUsed : Extent

/-- The body of `generate_voronoi_map` after the dataset is loaded: resolve
the extent (lines 50-64), build and project the grid (lines 70-83), project
the sites (line 84), label every grid sample with its nearest site
(lines 87-89), and render (lines 92-139). -/
noncomputable def generateCore (points : List (ℚ × ℚ)) (extent : Option (List ℚ))
    (world : Dataset) (point_colors : List String) (plugin_path : Option String)
    (draw_plugin fill_ocean : Bool) (lat_n lon_n : ℕ) : MapResult :=
  let ext := resolveExtent extent world
  { raster := labelRaster (points.map fun q : ℚ × ℚ => geo_to_cartesian (q.1 : ℝ) (q.2 : ℝ))
      (projGrid ext lat_n lon_n)
    usedColors := point_colors.take points.length
    drewPlugin := draw_plugin && plugin_path.isSome
    filledOcean := fill_ocean
    extentUsed := ext }

/-- Lines 27-142 of algorithm.py.  The two dataset reads are passed in as
outcomes; a failure of both propagates out of the function. -/
noncomputable def generate_voronoi_map (points : List (ℚ × ℚ))
    (primary fallback : Except String Dataset) (extent : Option (List ℚ))
    (point_colors : List String) (plugin_path : Option String)
    (draw_plugin fill_ocean : Bool) (lat_n lon_n : ℕ) : Except String MapResult :=
  (loadWorld primary fallback).map fun w =>
    generateCore points extent w point_colors plugin_path draw_plugin fill_ocean lat_n lon_n

/-- Lines 29-33 of main.py. -/
def RESOLUTION_MAP : List (String × ℕ × ℕ) :=
  [("low", 600, 1200), ("medium", 1200, 2400), ("high", 2400, 4800)]

/-- Line 72 of main.py: `RESOLUTION_MAP.get(resolution, (1200, 2400))`. -/
def resolutionLookup (resolution : String) : ℕ × ℕ :=
  match RESOLUTION_MAP.find? (fun kv => kv.1 == resolution) with
  | some kv => kv.2
  | none => (1200, 2400)

/-- The request-validation failures `api_generate_map` can raise before
calling the algorithm (main.py lines 47-58). -/
inductive ApiError where
  | jsonFormat
  | pointsCountOutOfRange
  | colorsCountMismatch
deriving DecidableEq

/-- Lines 54-72 of main.py: the validation stage of `api_generate_map` and
the grid size it hands to the algorithm. -/
def api_generate_map_validate (points : List (ℚ × ℚ)) (colors : List String)
    (resolution : String) : Except ApiError (ℕ × ℕ) :=
  if points.length < 2 ∨ 30 < points.length then .error .pointsCountOutOfRange
  else if colors.length ≠ points.length then .error .colorsCountMismatch
  else .ok (resolutionLookup resolution)

theorem linspace_length (a b : ℚ) (n : ℕ) : (linspace a b n).length = n := by
  unfold linspace
  split
  · rename_i h
    simp [h]
  · rw [List.length_map, List.length_range]

theorem linspace_getD (a b : ℚ) {n i : ℕ} (hn : 2 ≤ n) (hi : i < n) :
    (linspace a b n).getD i 0 = a + (b - a) * (i : ℚ) / ((n : ℚ) - 1) := by
  have h1 : n ≠ 1 := by omega
  have hlen : i < ((List.range n).map
      (fun i : ℕ => a + (b - a) * (i : ℚ) / ((n : ℚ) - 1))).length := by simpa using hi
  unfold linspace
  rw [if_neg h1, List.getD_eq_getElem _ _ hlen]
  simp only [List.getElem_map, List.getElem_range]

theorem linspace_mem {a b x : ℚ} {n : ℕ} (hab : a ≤ b) (hx : x ∈ linspace a b n) :
    a ≤ x ∧ x ≤ b := by
  unfold linspace at hx
  by_cases h1 : n = 1
  · rw [if_pos h1] at hx
    simp only [List.mem_singleton] at hx
    subst hx
    exact ⟨le_refl _, hab⟩
  · rw [if_neg h1] at hx
    simp only [List.mem_map, List.mem_range] at hx
    obtain ⟨i, hi, rfl⟩ := hx
    have hn2 : 2 ≤ n := by omega
    have hd : (0 : ℚ) < (n : ℚ) - 1 := by
      have h2 : (2 : ℚ) ≤ (n : ℚ) := by exact_mod_cast hn2
      linarith
    have hiq : (i : ℚ) ≤ (n : ℚ) - 1 := by
      have h3 : (i : ℚ) + 1 ≤ (n : ℚ) := by exact_mod_cast hi
      linarith
    have hnum : 0 ≤ (b - a) * (i : ℚ) := by
      have h4 : (0 : ℚ) ≤ (i : ℚ) := Nat.cast_nonneg i
      nlinarith
    constructor
    · have h5 : 0 ≤ (b - a) * (i : ℚ) / ((n : ℚ) - 1) := div_nonneg hnum (le_of_lt hd)
      linarith
    · have hle : (b - a) * (i : ℚ) ≤ (b - a) * ((n : ℚ) - 1) :=
        mul_le_mul_of_nonneg_left hiq (by linarith)
      have h6 : (b - a) * (i : ℚ) / ((n : ℚ) - 1) ≤ b - a := by
        rw [div_le_iff₀ hd]
        linarith
      linarith

theorem nearestAux_spec {α : Type} [LinearOrderedRing α] (p : α × α × α) :
    ∀ sites : List (α × α × α), sites ≠ [] →
      ∃ j m, nearestAux p sites = some (j, m) ∧ j < sites.length ∧
        m = sqDist (sites.getD j (0, 0, 0)) p ∧
        ∀ k, k < sites.length → m ≤ sqDist (sites.getD k (0, 0, 0)) p := by
  intro sites
  induction sites with
  | nil => intro h; exact absurd rfl h
  | cons s rest ih =>
    intro _
    cases rest with
    | nil =>
      refine ⟨0, sqDist s p, rfl, by simp, by simp, ?_⟩
      intro k hk
      simp only [List.length_singleton] at hk
      have hk0 : k = 0 := by omega
      subst hk0
      simp
    | cons t ts =>
      obtain ⟨j, m, hEq, hj, hm, hmin⟩ := ih (by simp)
      have hstep : nearestAux p (s :: t :: ts) =
          match nearestAux p (t :: ts) with
          | none => some (0, sqDist s p)
          | some (j, m) =>
            if sqDist s p ≤ m then some (0, sqDist s p) else some (j + 1, m) := rfl
      by_cases hle : sqDist s p ≤ m
      · refine ⟨0, sqDist s p, ?_, by simp, by simp, ?_⟩
        · rw [hstep, hEq]
          simp [hle]
        · intro k hk
          cases k with
          | zero => simp
          | succ k' =>
            have hk' : k' < (t :: ts).length := by simpa using hk
            have h7 := hmin k' hk'
            simp only [List.getD_cons_succ]
            exact le_trans hle h7
      · refine ⟨j + 1, m, ?_, by simpa using Nat.succ_lt_succ hj, ?_, ?_⟩
        · rw [hstep, hEq]
          simp [hle]
        · simpa using hm
        · intro k hk
          cases k with
          | zero =>
            have h8 : m ≤ sqDist s p := le_of_not_le hle
            simpa using h8
          | succ k' =>
            have hk' : k' < (t :: ts).length := by simpa using hk
            simpa using hmin k' hk'

theorem nearestSiteIdx_spec {α : Type} [LinearOrderedRing α]
    (sites : List (α × α × α)) (p : α × α × α) (hs : sites ≠ []) :
    nearestSiteIdx sites p < sites.length ∧
      ∀ k, k < sites.length →
        sqDist (sites.getD (nearestSiteIdx sites p) (0, 0, 0)) p ≤
          sqDist (sites.getD k (0, 0, 0)) p := by
  obtain ⟨j, m, hEq, hj, hm, hmin⟩ := nearestAux_spec p sites hs
  have hidx : nearestSiteIdx sites p = j := by
    unfold nearestSiteIdx
    rw [hEq]
  rw [hidx]
  refine ⟨hj, fun k hk => ?_⟩
  rw [← hm]
  exact hmin k hk

/-- C1: every entry of the label raster is the index of a site whose
Cartesian projection is at minimal Euclidean 3-D distance (equivalently,
minimal squared distance) from the grid sample's projection among all sites,
and in particular every entry lies in [0, N-1].  Stated for the assigner
over arbitrary 3-D points; `generate_voronoi_map` applies it to the
unit-sphere projections of the sites and grid samples. -/
theorem C1_raster_entry_is_nearest_site {α : Type} [LinearOrderedRing α]
    (sites : List (α × α × α)) (grid : List (List (α × α × α)))
    (hs : sites ≠ []) (i j : ℕ)
    (hi : i < grid.length) (hj : j < (grid.getD i []).length) :
    ((labelRaster sites grid).getD i []).getD j 0 < sites.length ∧
      ∀ k, k < sites.length →
        sqDist (sites.getD (((labelRaster sites grid).getD i []).getD j 0) (0, 0, 0))
            ((grid.getD i []).getD j (0, 0, 0)) ≤
          sqDist (sites.getD k (0, 0, 0)) ((grid.getD i []).getD j (0, 0, 0)) := by
  have hrow : (labelRaster sites grid).getD i [] =
      (grid.getD i []).map (nearestSiteIdx sites) := by
    unfold labelRaster
    rw [List.getD_eq_getElem _ _ (by simpa using hi), List.getElem_map,
      List.getD_eq_getElem _ _ hi]
  have hcell : ((grid.getD i []).map (nearestSiteIdx sites)).getD j 0 =
      nearestSiteIdx sites ((grid.getD i []).getD j (0, 0, 0)) := by
    rw [List.getD_eq_getElem _ _ (by simpa using hj), List.getElem_map,
      List.getD_eq_getElem _ _ hj]
  rw [hrow, hcell]
  exact nearestSiteIdx_spec sites _ hs

/-- Witness for C1 at concrete rational inputs: two sites, one grid sample. -/
theorem C1_witness :
    ((labelRaster [((1 : ℚ), 0, 0), (0, 1, 0)] [[((0 : ℚ), 1, 0)]]).getD 0 []).getD 0 0 <
        ([((1 : ℚ), 0, 0), (0, 1, 0)]).length ∧
      ∀ k, k < ([((1 : ℚ), 0, 0), (0, 1, 0)]).length →
        sqDist (([((1 : ℚ), 0, 0), (0, 1, 0)]).getD
              (((labelRaster [((1 : ℚ), 0, 0), (0, 1, 0)] [[((0 : ℚ), 1, 0)]]).getD 0 []).getD 0 0)
              (0, 0, 0))
            (([[((0 : ℚ), 1, 0)]].getD 0 []).getD 0 (0, 0, 0)) ≤
          sqDist (([((1 : ℚ), 0, 0), (0, 1, 0)]).getD k (0, 0, 0))
            (([[((0 : ℚ), 1, 0)]].getD 0 []).getD 0 (0, 0, 0)) :=
  C1_raster_entry_is_nearest_site [((1 : ℚ), 0, 0), (0, 1, 0)] [[((0 : ℚ), 1, 0)]]
    (by decide) 0 0 (by decide) (by decide)

/-- C8: the coordinate projector equals the spec's formula
(x, y, z) = (cos lat cos lon, cos lat sin lon, sin lat) after degree-to-radian
conversion, both pointwise and on whole batches; it is a pure function of its
input by construction. -/
theorem C8_projector_matches_spec :
    (∀ lat lon : ℝ, geo_to_cartesian lat lon = coordinateProjectorSpec lat lon) ∧
      ∀ ps : List (ℝ × ℝ),
        geo_to_cartesian_batch ps = ps.map fun q => coordinateProjectorSpec q.1 q.2 := by
  have hpt : ∀ lat lon : ℝ, geo_to_cartesian lat lon = coordinateProjectorSpec lat lon := by
    intro lat lon
    unfold geo_to_cartesian coordinateProjectorSpec deg2rad
    rw [mul_div_assoc, mul_div_assoc]
  refine ⟨hpt, fun ps => ?_⟩
  unfold geo_to_cartesian_batch
  simp only [hpt]

/-- C3: when the caller extent is absent or is not a list of exactly four
numbers, the resolved extent is the dataset's bounding box expanded outward
on each side by 5 percent of its width resp. height, with every resulting
bound inside the legal ranges [-180, 180] and [-90, 90]. -/
theorem C3_extent_autoderivation (w : Dataset) (e : List ℚ) (hlen : e.length ≠ 4)
    (h1 : -180 ≤ w.minx) (h2 : w.minx ≤ w.maxx) (h3 : w.maxx ≤ 180)
    (h4 : -90 ≤ w.miny) (h5 : w.miny ≤ w.maxy) (h6 : w.maxy ≤ 90) :
    resolveExtent none w =
        ⟨max (-180) (w.minx - (w.maxx - w.minx) * (5 / 100)),
          min 180 (w.maxx + (w.maxx - w.minx) * (5 / 100)),
          max (-90) (w.miny - (w.maxy - w.miny) * (5 / 100)),
          min 90 (w.maxy + (w.maxy - w.miny) * (5 / 100))⟩ ∧
      resolveExtent (some e) w = resolveExtent none w ∧
      -180 ≤ (resolveExtent none w).min_lon ∧ (resolveExtent none w).min_lon ≤ 180 ∧
      -180 ≤ (resolveExtent none w).max_lon ∧ (resolveExtent none w).max_lon ≤ 180 ∧
      -90 ≤ (resolveExtent none w).min_lat ∧ (resolveExtent none w).min_lat ≤ 90 ∧
      -90 ≤ (resolveExtent none w).max_lat ∧ (resolveExtent none w).max_lat ≤ 90 := by
  have hnone : resolveExtent none w = autoExtent w := rfl
  have hsome : resolveExtent (some e) w = autoExtent w := by
    match e, hlen with
    | [], _ => rfl
    | [a], _ => rfl
    | [a, b], _ => rfl
    | [a, b, c], _ => rfl
    | [a, b, c, d], h => exact absurd rfl h
    | a :: b :: c :: d :: x :: rest, _ => rfl
  have hmx : 0 ≤ (w.maxx - w.minx) * (5 / 100) := by nlinarith
  have hmy : 0 ≤ (w.maxy - w.miny) * (5 / 100) := by nlinarith
  refine ⟨hnone, hsome.trans hnone.symm, ?_, ?_, ?_, ?_, ?_, ?_, ?_, ?_⟩ <;>
    simp only [hnone, autoExtent]
  · exact le_max_left _ _
  · exact max_le (by norm_num) (by linarith)
  · exact le_min (by norm_num) (by linarith)
  · exact min_le_left _ _
  · exact le_max_left _ _
  · exact max_le (by norm_num) (by linarith)
  · exact le_min (by norm_num) (by linarith)
  · exact min_le_left _ _

/-- Witness for C3 at the spec's example: dataset bounds (0, 10, 0, 10)
resolve to the extent (-0.5, 10.5, -0.5, 10.5). -/
theorem C3_witness :
    resolveExtent none ⟨0, 0, 10, 10⟩ = ⟨-(1 / 2), 21 / 2, -(1 / 2), 21 / 2⟩ ∧
      resolveExtent (some []) ⟨0, 0, 10, 10⟩ = resolveExtent none ⟨0, 0, 10, 10⟩ := by
  have h := C3_extent_autoderivation ⟨0, 0, 10, 10⟩ [] (by decide)
    (by norm_num) (by norm_num) (by norm_num) (by norm_num) (by norm_num) (by norm_num)
  refine ⟨h.1.trans ?_, h.2.1⟩
  have e1 : max (-180 : ℚ) ((0 : ℚ) - ((10 : ℚ) - 0) * (5 / 100)) = -(1 / 2) := by
    rw [max_eq_right (by norm_num)]
    norm_num
  have e2 : min (180 : ℚ) ((10 : ℚ) + ((10 : ℚ) - 0) * (5 / 100)) = 21 / 2 := by
    rw [min_eq_right (by norm_num)]
    norm_num
  have e3 : max (-90 : ℚ) ((0 : ℚ) - ((10 : ℚ) - 0) * (5 / 100)) = -(1 / 2) := by
    rw [max_eq_right (by norm_num)]
    norm_num
  have e4 : min (90 : ℚ) ((10 : ℚ) + ((10 : ℚ) - 0) * (5 / 100)) = 21 / 2 := by
    rw [min_eq_right (by norm_num)]
    norm_num
  show Extent.mk _ _ _ _ = Extent.mk _ _ _ _
  rw [show ((⟨0, 0, 10, 10⟩ : Dataset).minx : ℚ) = 0 from rfl]
  simp only [Extent.mk.injEq]
  exact ⟨e1, e2, e3, e4⟩

theorem linspace_first (a b : ℚ) {n : ℕ} (hn : 2 ≤ n) : (linspace a b n).getD 0 0 = a := by
  rw [linspace_getD a b hn (by omega)]
  simp

theorem linspace_last (a b : ℚ) {n : ℕ} (hn : 2 ≤ n) :
    (linspace a b n).getD (n - 1) 0 = b := by
  rw [linspace_getD a b hn (by omega)]
  have hd : ((n : ℚ) - 1) ≠ 0 := by
    have h2 : (2 : ℚ) ≤ (n : ℚ) := by exact_mod_cast hn
    linarith
  have h1 : 1 ≤ n := by omega
  rw [Nat.cast_sub h1, Nat.cast_one, mul_div_assoc, div_self hd, mul_one]
  ring

theorem linspace_step (a b : ℚ) {n i : ℕ} (hn : 2 ≤ n) (hi : i + 1 < n) :
    (linspace a b n).getD (i + 1) 0 - (linspace a b n).getD i 0 =
      (b - a) / ((n : ℚ) - 1) := by
  rw [linspace_getD a b hn hi, linspace_getD a b hn (by omega)]
  push_cast
  ring

/-- C4: for every resolved extent and resolution, the grid builder pads the
extent by 10 percent per side, clamps the padded window, and produces exactly
lat_n evenly spaced latitudes and lon_n evenly spaced longitudes spanning the
padded window; the label raster built over their meshgrid has shape
(lat_n, lon_n). -/
theorem C4_grid_builder (ext : Extent) (lat_n lon_n : ℕ)
    (hlat : 2 ≤ lat_n) (hlon : 2 ≤ lon_n) :
    (gridLats ext lat_n).length = lat_n ∧
    (gridLons ext lon_n).length = lon_n ∧
    (gridLats ext lat_n).getD 0 0 = padLatLo ext ∧
    (gridLats ext lat_n).getD (lat_n - 1) 0 = padLatHi ext ∧
    (gridLons ext lon_n).getD 0 0 = padLonLo ext ∧
    (gridLons ext lon_n).getD (lon_n - 1) 0 = padLonHi ext ∧
    (∀ i, i + 1 < lat_n →
      (gridLats ext lat_n).getD (i + 1) 0 - (gridLats ext lat_n).getD i 0 =
        (padLatHi ext - padLatLo ext) / ((lat_n : ℚ) - 1)) ∧
    (∀ i, i + 1 < lon_n →
      (gridLons ext lon_n).getD (i + 1) 0 - (gridLons ext lon_n).getD i 0 =
        (padLonHi ext - padLonLo ext) / ((lon_n : ℚ) - 1)) ∧
    ∀ sitesC : List (ℝ × ℝ × ℝ),
      (labelRaster sitesC (projGrid ext lat_n lon_n)).length = lat_n ∧
      ∀ row ∈ labelRaster sitesC (projGrid ext lat_n lon_n), row.length = lon_n := by
  refine ⟨?_, ?_, ?_, ?_, ?_, ?_, ?_, ?_, fun sitesC => ⟨?_, ?_⟩⟩
  · exact linspace_length _ _ _
  · exact linspace_length _ _ _
  · exact linspace_first _ _ hlat
  · exact linspace_last _ _ hlat
  · exact linspace_first _ _ hlon
  · exact linspace_last _ _ hlon
  · exact fun i hi => linspace_step _ _ hlat hi
  · exact fun i hi => linspace_step _ _ hlon hi
  · simp only [labelRaster, projGrid, List.length_map]
    exact linspace_length _ _ _
  · intro row hrow
    simp only [labelRaster, List.mem_map] at hrow
    obtain ⟨grow, hgrow, rfl⟩ := hrow
    simp only [projGrid, List.mem_map] at hgrow
    obtain ⟨la, hla, rfl⟩ := hgrow
    simp only [List.length_map]
    exact linspace_length _ _ _

/-- Witness for C4 at the extent (0, 10, 0, 10) with a 2 by 2 grid and one
site. -/
theorem C4_witness :
    (gridLats ⟨0, 10, 0, 10⟩ 2).length = 2 ∧
      (gridLats ⟨0, 10, 0, 10⟩ 2).getD 0 0 = padLatLo ⟨0, 10, 0, 10⟩ ∧
      (gridLats ⟨0, 10, 0, 10⟩ 2).getD 1 0 - (gridLats ⟨0, 10, 0, 10⟩ 2).getD 0 0 =
        (padLatHi ⟨0, 10, 0, 10⟩ - padLatLo ⟨0, 10, 0, 10⟩) / ((2 : ℚ) - 1) ∧
      (labelRaster [((1 : ℝ), 0, 0)] (projGrid ⟨0, 10, 0, 10⟩ 2 2)).length = 2 := by
  have h := C4_grid_builder ⟨0, 10, 0, 10⟩ 2 2 (by norm_num) (by norm_num)
  exact ⟨h.1, h.2.2.1, h.2.2.2.2.2.2.1 0 (by norm_num),
    (h.2.2.2.2.2.2.2.2 [((1 : ℝ), 0, 0)]).1⟩

theorem linspace_self (a : ℚ) (n : ℕ) : linspace a a n = List.replicate n a := by
  unfold linspace
  by_cases h1 : n = 1
  · rw [if_pos h1, h1]
    rfl
  · rw [if_neg h1]
    apply List.eq_replicate_iff.mpr
    refine ⟨by simp, ?_⟩
    intro b hb
    simp only [List.mem_map, List.mem_range] at hb
    obtain ⟨i, _, rfl⟩ := hb
    ring

/-- C5 counterexample: a zero-width extent (min_lon = max_lon = 5) is not
rejected; the pipeline still returns a successful result. -/
theorem C5_counterexample :
    (generate_voronoi_map [(0, 0), (10, 10)] (Except.ok ⟨0, 0, 10, 10⟩)
        (Except.error "fallback") (some [5, 5, 0, 10]) ["red", "blue"]
        none false true 2 2).isOk = true := rfl

/-- C5 amended: degenerate extents are not rejected and raise no error; a
zero-width extent yields lon_n copies of the single longitude, a zero-height
extent yields lat_n copies of the single latitude, and the pipeline still
succeeds whenever the dataset loads. -/
theorem C5_amended_degenerate_extent (a c u v : ℚ) (n : ℕ)
    (h1 : -180 ≤ a) (h2 : a ≤ 180) (h3 : -90 ≤ c) (h4 : c ≤ 90) :
    gridLons ⟨a, a, u, v⟩ n = List.replicate n a ∧
      gridLats ⟨u, v, c, c⟩ n = List.replicate n c ∧
      ∀ pts p f w colors pp dp fo m1 m2, loadWorld p f = Except.ok w →
        (generate_voronoi_map pts p f (some [a, a, c, c]) colors pp dp fo m1 m2).isOk =
          true := by
  have e1 : padLonLo ⟨a, a, u, v⟩ = a := by
    show max (-180) (a - (a - a) * (1 / 10)) = a
    have h0 : a - (a - a) * (1 / 10) = a := by ring
    rw [h0]
    exact max_eq_right h1
  have e2 : padLonHi ⟨a, a, u, v⟩ = a := by
    show min 180 (a + (a - a) * (1 / 10)) = a
    have h0 : a + (a - a) * (1 / 10) = a := by ring
    rw [h0]
    exact min_eq_right h2
  have e3 : padLatLo ⟨u, v, c, c⟩ = c := by
    show max (-90) (c - (c - c) * (1 / 10)) = c
    have h0 : c - (c - c) * (1 / 10) = c := by ring
    rw [h0]
    exact max_eq_right h3
  have e4 : padLatHi ⟨u, v, c, c⟩ = c := by
    show min 90 (c + (c - c) * (1 / 10)) = c
    have h0 : c + (c - c) * (1 / 10) = c := by ring
    rw [h0]
    exact min_eq_right h4
  refine ⟨?_, ?_, ?_⟩
  · unfold gridLons
    rw [e1, e2]
    exact linspace_self a n
  · unfold gridLats
    rw [e3, e4]
    exact linspace_self c n
  · intro pts p f w colors pp dp fo m1 m2 hload
    unfold generate_voronoi_map
    rw [hload]
    rfl

/-- Witness for C5's amended statement at a concrete degenerate extent. -/
theorem C5_amended_witness :
    gridLons ⟨5, 5, 0, 10⟩ 3 = List.replicate 3 5 ∧
      (generate_voronoi_map [(0, 0), (10, 10)] (Except.ok ⟨0, 0, 10, 10⟩)
          (Except.error "nofile") (some [5, 5, 0, 0]) ["red", "blue"]
          none false true 2 2).isOk = true := by
  have h := C5_amended_degenerate_extent 5 0 0 10 3
    (by norm_num) (by norm_num) (by norm_num) (by norm_num)
  exact ⟨h.1, h.2.2 [(0, 0), (10, 10)] (Except.ok ⟨0, 0, 10, 10⟩)
    (Except.error "nofile") ⟨0, 0, 10, 10⟩ ["red", "blue"] none false true 2 2 rfl⟩

/-- C6 counterexample: the unknown resolution tier "ultra" passes validation
and is silently mapped to the default grid size (1200, 2400). -/
theorem C6_counterexample :
    api_generate_map_validate [(0, 0), (10, 10)] ["red", "blue"] "ultra" =
      Except.ok (1200, 2400) := rfl

/-- C6 amended: a resolution value outside low, medium and high is not
rejected; `RESOLUTION_MAP.get` silently substitutes the default (1200, 2400),
the same grid size as the medium tier, and validation succeeds whenever the
point and color counts are legal. -/
theorem C6_amended_resolution_default (r : String)
    (h1 : r ≠ "low") (h2 : r ≠ "medium") (h3 : r ≠ "high") :
    resolutionLookup r = (1200, 2400) ∧
      resolutionLookup r = resolutionLookup "medium" ∧
      ∀ pts : List (ℚ × ℚ), ∀ colors : List String,
        2 ≤ pts.length → pts.length ≤ 30 → colors.length = pts.length →
          api_generate_map_validate pts colors r = Except.ok (1200, 2400) := by
  have hl : resolutionLookup r = (1200, 2400) := by
    unfold resolutionLookup
    have hfind : RESOLUTION_MAP.find? (fun kv => kv.1 == r) = none := by
      unfold RESOLUTION_MAP
      rw [List.find?_cons_of_neg _ (by simpa using Ne.symm h1),
        List.find?_cons_of_neg _ (by simpa using Ne.symm h2),
        List.find?_cons_of_neg _ (by simpa using Ne.symm h3)]
      rfl
    rw [hfind]
  refine ⟨hl, hl.trans (by decide), ?_⟩
  intro pts colors hge hle hcol
  unfold api_generate_map_validate
  rw [if_neg (by omega), if_neg (by omega), hl]

/-- Witness for C6's amended statement at the tier "ultra". -/
theorem C6_amended_witness :
    resolutionLookup "ultra" = (1200, 2400) ∧
      api_generate_map_validate [(0, 0), (10, 10)] ["red", "blue"] "ultra" =
        Except.ok (1200, 2400) := by
  have h := C6_amended_resolution_default "ultra" (by decide) (by decide) (by decide)
  exact ⟨h.1, h.2.2 [(0, 0), (10, 10)] ["red", "blue"] (by decide) (by decide) (by decide)⟩

/-- C7: the primary dataset is used when it loads; on a primary failure the
system falls back exactly once to the bundled default; if that also fails the
whole request fails with the load error and no result is produced. -/
theorem C7_dataset_fallback (p f : Except String Dataset) :
    (∀ w : Dataset, p = Except.ok w → loadWorld p f = Except.ok w) ∧
      (∀ e : String, p = Except.error e → loadWorld p f = f) ∧
      ∀ e e' : String, ∀ pts extent colors pp dp fo m1 m2,
        p = Except.error e → f = Except.error e' →
          generate_voronoi_map pts p f extent colors pp dp fo m1 m2 =
            Except.error e' := by
  refine ⟨?_, ?_, ?_⟩
  · intro w hw
    subst hw
    rfl
  · intro e he
    subst he
    rfl
  · intro e e' pts extent colors pp dp fo m1 m2 hp hf
    subst hp
    subst hf
    rfl

/-- Witness for C7: the three behaviors at concrete load outcomes. -/
theorem C7_witness :
    loadWorld (Except.ok (⟨0, 0, 10, 10⟩ : Dataset)) (Except.error "f") =
        Except.ok ⟨0, 0, 10, 10⟩ ∧
      loadWorld (Except.error "e") (Except.ok (⟨0, 0, 10, 10⟩ : Dataset)) =
        Except.ok ⟨0, 0, 10, 10⟩ ∧
      generate_voronoi_map [(0, 0), (10, 10)] (Except.error "e") (Except.error "f")
        none ["red", "blue"] none false true 2 2 = Except.error "f" := by
  refine ⟨(C7_dataset_fallback (Except.ok ⟨0, 0, 10, 10⟩) (Except.error "f")).1
    ⟨0, 0, 10, 10⟩ rfl, ?_, ?_⟩
  · exact (C7_dataset_fallback (Except.error "e") (Except.ok ⟨0, 0, 10, 10⟩)).2.1 "e" rfl
  · exact (C7_dataset_fallback (Except.error "e") (Except.error "f")).2.2 "e" "f"
      [(0, 0), (10, 10)] none ["red", "blue"] none false true 2 2 rfl rfl

/-- C9: the label raster depends only on the sites, the resolved extent and
the resolution; two invocations agreeing on those produce identical rasters
whatever point_colors, plugin_path, draw_plugin and fill_ocean are. -/
theorem C9_raster_independent_of_render_args (pts : List (ℚ × ℚ))
    (p1 f1 p2 f2 : Except String Dataset) (e1 e2 : Option (List ℚ))
    (w1 w2 : Dataset) (c1 c2 : List String) (pp1 pp2 : Option String)
    (dp1 dp2 fo1 fo2 : Bool) (lat_n lon_n : ℕ)
    (h1 : loadWorld p1 f1 = Except.ok w1) (h2 : loadWorld p2 f2 = Except.ok w2)
    (hext : resolveExtent e1 w1 = resolveExtent e2 w2) :
    (generate_voronoi_map pts p1 f1 e1 c1 pp1 dp1 fo1 lat_n lon_n).map
        (fun r => r.raster) =
      (generate_voronoi_map pts p2 f2 e2 c2 pp2 dp2 fo2 lat_n lon_n).map
        (fun r => r.raster) := by
  have s1 : generate_voronoi_map pts p1 f1 e1 c1 pp1 dp1 fo1 lat_n lon_n =
      Except.ok (generateCore pts e1 w1 c1 pp1 dp1 fo1 lat_n lon_n) := by
    unfold generate_voronoi_map
    rw [h1]
    rfl
  have s2 : generate_voronoi_map pts p2 f2 e2 c2 pp2 dp2 fo2 lat_n lon_n =
      Except.ok (generateCore pts e2 w2 c2 pp2 dp2 fo2 lat_n lon_n) := by
    unfold generate_voronoi_map
    rw [h2]
    rfl
  rw [s1, s2]
  refine congrArg Except.ok ?_
  show labelRaster (pts.map fun q : ℚ × ℚ => geo_to_cartesian (q.1 : ℝ) (q.2 : ℝ))
        (projGrid (resolveExtent e1 w1) lat_n lon_n) =
      labelRaster (pts.map fun q : ℚ × ℚ => geo_to_cartesian (q.1 : ℝ) (q.2 : ℝ))
        (projGrid (resolveExtent e2 w2) lat_n lon_n)
  rw [hext]

/-- Witness for C9: same sites, dataset and resolution, different colors,
plugin, overlay flag and ocean flag. -/
theorem C9_witness :
    (generate_voronoi_map [(0, 0), (10, 10)] (Except.ok ⟨0, 0, 10, 10⟩)
        (Except.error "f") none ["red", "blue"] none false true 2 2).map
        (fun r => r.raster) =
      (generate_voronoi_map [(0, 0), (10, 10)] (Except.ok ⟨0, 0, 10, 10⟩)
        (Except.error "f") none ["green", "black"] (some "aux.geojson")
        true false 2 2).map (fun r => r.raster) :=
  C9_raster_independent_of_render_args [(0, 0), (10, 10)]
    (Except.ok ⟨0, 0, 10, 10⟩) (Except.error "f") (Except.ok ⟨0, 0, 10, 10⟩)
    (Except.error "f") none none ⟨0, 0, 10, 10⟩ ⟨0, 0, 10, 10⟩
    ["red", "blue"] ["green", "black"] none (some "aux.geojson")
    false true true false 2 2 rfl rfl rfl

/-- C10 counterexample: for the caller extent [0, 1, 100, 101], whose
latitudes lie outside the legal range, the first grid latitude is 99.9,
which exceeds 90. -/
theorem C10_counterexample :
    ¬ ((gridLats ⟨0, 1, 100, 101⟩ 2).getD 0 0 ≤ 90) := by
  have hfirst : (gridLats ⟨0, 1, 100, 101⟩ 2).getD 0 0 = padLatLo ⟨0, 1, 100, 101⟩ := by
    unfold gridLats
    exact linspace_first _ _ (by norm_num)
  have hval : padLatLo ⟨0, 1, 100, 101⟩ = 999 / 10 := by
    show max (-90) ((100 : ℚ) - ((101 : ℚ) - 100) * (1 / 10)) = 999 / 10
    rw [max_eq_right (by norm_num)]
    norm_num
  rw [hfirst, hval]
  norm_num

/-- C10 amended: the clamp `max(-90, lo - pad)` / `min(90, hi + pad)` only
bounds the low endpoint from below and the high endpoint from above, so the
guarantee holds for extents whose values already lie in the legal ranges with
min at most max (as auto-derived extents do): then every grid latitude lies
in [-90, 90] and every grid longitude in [-180, 180]. -/
theorem C10_amended_grid_in_bounds (ext : Extent) (lat_n lon_n : ℕ)
    (h1 : -180 ≤ ext.min_lon) (h2 : ext.min_lon ≤ ext.max_lon) (h3 : ext.max_lon ≤ 180)
    (h4 : -90 ≤ ext.min_lat) (h5 : ext.min_lat ≤ ext.max_lat) (h6 : ext.max_lat ≤ 90) :
    (∀ x ∈ gridLats ext lat_n, -90 ≤ x ∧ x ≤ 90) ∧
      ∀ x ∈ gridLons ext lon_n, -180 ≤ x ∧ x ≤ 180 := by
  constructor
  · intro x hx
    have hpad : 0 ≤ (ext.max_lat - ext.min_lat) * (1 / 10) := by nlinarith
    have hlohi : padLatLo ext ≤ padLatHi ext := by
      unfold padLatLo padLatHi
      apply max_le
      · exact le_min (by norm_num) (by linarith)
      · exact le_min (by linarith) (by linarith)
    unfold gridLats at hx
    have hmem := linspace_mem hlohi hx
    constructor
    · refine le_trans ?_ hmem.1
      unfold padLatLo
      exact le_max_left _ _
    · refine le_trans hmem.2 ?_
      unfold padLatHi
      exact min_le_left _ _
  · intro x hx
    have hpad : 0 ≤ (ext.max_lon - ext.min_lon) * (1 / 10) := by nlinarith
    have hlohi : padLonLo ext ≤ padLonHi ext := by
      unfold padLonLo padLonHi
      apply max_le
      · exact le_min (by norm_num) (by linarith)
      · exact le_min (by linarith) (by linarith)
    unfold gridLons at hx
    have hmem := linspace_mem hlohi hx
    constructor
    · refine le_trans ?_ hmem.1
      unfold padLonLo
      exact le_max_left _ _
    · refine le_trans hmem.2 ?_
      unfold padLonHi
      exact min_le_left _ _

/-- Witness for C10's amended statement: the first grid latitude of a legal
extent lies in [-90, 90]. -/
theorem C10_amended_witness :
    -90 ≤ (gridLats ⟨0, 10, 0, 10⟩ 2).getD 0 0 ∧
      (gridLats ⟨0, 10, 0, 10⟩ 2).getD 0 0 ≤ 90 := by
  have hlen : (0 : ℕ) < (gridLats ⟨0, 10, 0, 10⟩ 2).length := by
    unfold gridLats
    rw [linspace_length]
    norm_num
  have hmem : (gridLats ⟨0, 10, 0, 10⟩ 2).getD 0 0 ∈ gridLats ⟨0, 10, 0, 10⟩ 2 := by
    rw [List.getD_eq_getElem _ _ hlen]
    exact List.getElem_mem hlen
  exact (C10_amended_grid_in_bounds ⟨0, 10, 0, 10⟩ 2 2 (by norm_num) (by norm_num)
    (by norm_num) (by norm_num) (by norm_num) (by norm_num)).1 _ hmem

end VoronoiMap
